import Mathlib

/-!
Shallow embedding of the GlutenPeek product-resolution and staleness-aware
classification pipeline, translated from
`GlutenPeek-frontend/src/components/UserSearchResultItem.tsx` (the ScanTab
component) and `GlutenPeek-frontend/src/lib/api.ts`.

External I/O (fetch results, the JS regular-expression engine and JSON.parse
on AI response text, S3 upload results) is passed in as explicit oracle
inputs, the way the TypeScript code receives them from the host environment.
All strings use the JavaScript falsiness convention: the empty string stands
for a missing/falsy field.
-/

set_option autoImplicit false

namespace GlutenPeek

/-- Mirror of the `ApiResponse<T>` interface in `lib/api.ts` (lines 14-18):
optional `data`, optional `error` message, and an HTTP status number
(0 for client-side/network failures). -/
structure ApiResponse (α : Type) where
  data : Option α
  error : Option String
  status : Nat
deriving Repr, DecidableEq

/-- Case-insensitive containment test on the text, mirroring a JavaScript
`text.match(/pat/i) !== null` where `pat` is a plain lowercase literal
(as all the gluten-keyword regex literals in `api.ts` are).
Only the text is lowercased, since the patterns are written lowercase. -/
def matchesCI (pat : String) (text : String) : Bool :=
  decide (pat.data <:+: text.data.map Char.toLower)

/-- Result of `text.match(/gluten[- ]free/i)` in `extractGlutenInfoFromText`
(`api.ts` line 521): the character class `[- ]` is a hyphen-or-space. -/
def matchGlutenFree (text : String) : Bool :=
  matchesCI "gluten-free" text || matchesCI "gluten free" text

/-- Result of `text.match(/not gluten[- ]free/i)` (`api.ts` line 521). -/
def matchNotGlutenFree (text : String) : Bool :=
  matchesCI "not gluten-free" text || matchesCI "not gluten free" text

/-- Result of `text.match(/contains gluten|has gluten|gluten[- ]containing/i)`
(`api.ts` line 523). -/
def matchContainsGluten (text : String) : Bool :=
  matchesCI "contains gluten" text || matchesCI "has gluten" text ||
    matchesCI "gluten-containing" text || matchesCI "gluten containing" text

/-- The pair of fields `extractGlutenInfoFromText` returns (`api.ts` line 513). -/
structure GlutenInfo where
  glutenFreeStatus : String
  explanation : String
deriving Repr, DecidableEq

/-- Embedding of `extractGlutenInfoFromText` (`api.ts` lines 513-536).
The keyword regexes are computed from the text; `explCapture` is the oracle
input carrying the capture group of the `explanation:`/`analysis:`/
`assessment:` regexes (lines 528-530), `none` when none of them matched.
The source keeps the defaults when the trimmed capture is empty. -/
def extractGlutenInfoFromText (text : String) (explCapture : Option String) : GlutenInfo :=
  let status :=
    if matchGlutenFree text && !matchNotGlutenFree text then "gluten-free"
    else if matchContainsGluten text then "contains-gluten"
    else "unknown"
  let expl :=
    match explCapture with
    | some e => if e.trim ≠ "" then e.trim else "Unable to determine from AI response"
    | none => "Unable to determine from AI response"
  { glutenFreeStatus := status, explanation := expl }

/-- Oracle record for the host-library calls `geminiApi.checkGlutenStatus`
performs on the extracted response text (`api.ts` lines 454-468):
`jsonMatch` is the substring matched by the code-fence/brace regexes
(lines 454-456, `none` when none matched), `jsonParsed` is the result of
`JSON.parse` on the cleaned match (line 461, `none` when `JSON.parse`
throws), with absent or falsy object fields represented by `""`, and
`explCapture` is the explanation-capture oracle for the fallback extractor. -/
structure GeminiTextOracle where
  jsonMatch : Option String
  jsonParsed : Option GlutenInfo
  explCapture : Option String
deriving Repr, DecidableEq

/-- Observable outcome of the `fetch` + `response.json()` pair inside
`geminiApi.checkGlutenStatus` (`api.ts` lines 437-451): `threw` covers a
thrown fetch or body-parse error (caught at lines 478-484, reported with
status 0), `notOk` a non-2xx response routed through `handleApiError`, and
`okBody` a successfully parsed body together with the extracted
`responseText` (`data.candidates?.[0]?.content?.parts?.[0]?.text || ''`)
and the text-analysis oracle. -/
inductive FetchOutcome where
  | threw (msg : String)
  | notOk (status : Nat) (msg : String)
  | okBody (responseText : String) (oracle : GeminiTextOracle)
deriving Repr, DecidableEq

/-- The `data` payload `geminiApi.checkGlutenStatus` returns on its 200 path
(`api.ts` lines 470-477). -/
structure GlutenCheckData where
  success : Bool
  glutenFreeStatus : String
  explanation : String
deriving Repr, DecidableEq

/-- Embedding of `geminiApi.checkGlutenStatus` (`api.ts` lines 397-485):
missing API key short-circuits with an error (lines 398-405); a thrown
fetch/parse gives an error with status 0; a non-ok response gives an error
with that status; an ok body extracts the gluten info from a parsed JSON
block when one parses, otherwise falls back to `extractGlutenInfoFromText`,
and always returns `success := true` with status 200, defaulting falsy
fields to `"unknown"` / `"Unable to determine"` (lines 470-477). -/
def checkGlutenStatus (apiKeyConfigured : Bool) (f : FetchOutcome) :
    ApiResponse GlutenCheckData :=
  if !apiKeyConfigured then
    { data := none, error := some "Gemini API key is not configured", status := 0 }
  else
    match f with
    | .threw msg => { data := none, error := some msg, status := 0 }
    | .notOk s msg => { data := none, error := some msg, status := s }
    | .okBody text oracle =>
      let glutenInfo :=
        match oracle.jsonMatch with
        | some _ =>
          match oracle.jsonParsed with
          | some gi => gi
          | none => extractGlutenInfoFromText text oracle.explCapture
        | none => extractGlutenInfoFromText text oracle.explCapture
      { data := some
          { success := true
            glutenFreeStatus :=
              if glutenInfo.glutenFreeStatus = "" then "unknown"
              else glutenInfo.glutenFreeStatus
            explanation :=
              if glutenInfo.explanation = "" then "Unable to determine"
              else glutenInfo.explanation }
        error := none
        status := 200 }

/-! Staleness-aware classification: `checkAndProcessGlutenStatus`
(`UserSearchResultItem.tsx` lines 206-294). -/

/-- The `status` object carried on a product inside a scan response
(`ProductInScan` interface, `UserSearchResultItem.tsx` lines 199-202):
a status string plus an optional explanation. -/
structure ProductStatus where
  status : String
  explanation : Option String
deriving Repr, DecidableEq

/-- Mirror of the `ProductInScan` interface (`UserSearchResultItem.tsx`
lines 193-203). `createdAt` is the millisecond epoch value of
`new Date(product.createdAt)`; `none` models a missing/falsy `createdAt`
and a missing `status` object models the other falsy guard at line 207. -/
structure ProductInScan where
  barcode : String
  name : String
  ingredients : String
  createdAt : Option Int
  status : Option ProductStatus
deriving Repr, DecidableEq

/-- Milliseconds in the 7-day freshness window. The source computes
`oneWeekAgo` by `setDate(getDate() - 7)` on the current date
(`UserSearchResultItem.tsx` lines 213-214); this is 7 calendar days,
modelled as the constant 7 * 24 * 60 * 60 * 1000 milliseconds. -/
def msPerWeek : Int := 604800000

/-- The body sent to `statusApi.updateProductStatus`
(`UserSearchResultItem.tsx` line 256): `{ status, explanation }`. -/
structure StatusUpdatePayload where
  status : String
  explanation : String
deriving Repr, DecidableEq

/-- Everything observable about one `checkAndProcessGlutenStatus` run:
its return value (`none` models the `null` return), how many Classifier
(`geminiApi.checkGlutenStatus`) calls it made, how many
`statusApi.updateProductStatus` calls it made and with which payload,
and which of its two toasts it emitted (the "AI Gluten Check" update
notification at line 272 and the "AI Gluten Check Failed" toast at
line 287). -/
structure StalenessOutcome where
  result : Option ProductStatus
  classifierCalls : Nat
  updateCalls : Nat
  updatePayload : Option StatusUpdatePayload
  updateToast : Bool
  failToast : Bool
deriving Repr, DecidableEq

/-- Reasons the `try` block of `checkAndProcessGlutenStatus` throws:
the Classifier response carried an error (line 238), or it carried no
successful data / no status (line 242). -/
inductive GlutenCheckThrow where
  | geminiApiFailed (msg : String)
  | geminiNotSuccessful
deriving Repr, DecidableEq

/-- Partial result of the `try` block when it does not throw. -/
structure GlutenTryOut where
  result : Option ProductStatus
  updateCalls : Nat
  updatePayload : Option StatusUpdatePayload
  updateToast : Bool
deriving Repr, DecidableEq

/-- Embedding of the `try` block of `checkAndProcessGlutenStatus`
(`UserSearchResultItem.tsx` lines 227-283), entered only on the stale path.
`st` is the stored `product.status`; `gemini` and `update` are the awaited
results of the Classifier call and of `statusApi.updateProductStatus`.
A thrown error is an `Except.error`; all throw sites precede the status
update call, so a throw implies zero update calls. -/
def glutenCheckTry (st : ProductStatus) (authToken : Option String)
    (gemini : ApiResponse GlutenCheckData) (update : ApiResponse ProductStatus) :
    Except GlutenCheckThrow GlutenTryOut :=
  match gemini.error with
  | some msg => .error (.geminiApiFailed msg)
  | none =>
    match gemini.data with
    | none => .error .geminiNotSuccessful
    | some d =>
      if !d.success || d.glutenFreeStatus = "" then .error .geminiNotSuccessful
      else if d.glutenFreeStatus ≠ st.status then
        match authToken with
        | none =>
          -- line 249: no auth token, log only, return the original status
          .ok { result := some st, updateCalls := 0, updatePayload := none,
                updateToast := false }
        | some _ =>
          let payload : StatusUpdatePayload :=
            { status := d.glutenFreeStatus, explanation := d.explanation }
          match update.error with
          | some _ =>
            -- line 265: backend update failed, log only, return original status
            .ok { result := some st, updateCalls := 1,
                  updatePayload := some payload, updateToast := false }
          | none =>
            .ok { result := update.data, updateCalls := 1,
                  updatePayload := some payload, updateToast := true }
      else
        -- line 279: no change suggested, return the original status
        .ok { result := some st, updateCalls := 0, updatePayload := none,
              updateToast := false }

/-- Embedding of `checkAndProcessGlutenStatus` (`UserSearchResultItem.tsx`
lines 206-294). Missing `createdAt` or `status` returns `null` with no
calls (line 207); a product younger than one week returns the stored
status with no calls (line 216); otherwise the Classifier is called once
and the `try`/`catch` at lines 227-293 yields either the try outcome or,
on a throw, the stored status plus the failure toast. -/
def checkAndProcessGlutenStatus (product : ProductInScan)
    (authToken : Option String) (now : Int)
    (gemini : ApiResponse GlutenCheckData) (update : ApiResponse ProductStatus) :
    StalenessOutcome :=
  match product.createdAt, product.status with
  | none, _ =>
    { result := none, classifierCalls := 0, updateCalls := 0,
      updatePayload := none, updateToast := false, failToast := false }
  | some _, none =>
    { result := none, classifierCalls := 0, updateCalls := 0,
      updatePayload := none, updateToast := false, failToast := false }
  | some created, some st =>
    if now - msPerWeek < created then
      { result := some st, classifierCalls := 0, updateCalls := 0,
        updatePayload := none, updateToast := false, failToast := false }
    else
      match glutenCheckTry st authToken gemini update with
      | .ok r =>
        { result := r.result, classifierCalls := 1, updateCalls := r.updateCalls,
          updatePayload := r.updatePayload, updateToast := r.updateToast,
          failToast := false }
      | .error _ =>
        { result := some st, classifierCalls := 1, updateCalls := 0,
          updatePayload := none, updateToast := false, failToast := true }

/-- Modelled from the spec: the stored status record kept by the backend
CatalogStore, `{ label, explanation, lastEvaluatedAt }` (spec section 3).
The backend `GlutenPeekBackend` package is not among the sources. -/
structure StoredStatus where
  label : String
  explanation : String
  lastEvaluatedAt : Int
deriving Repr, DecidableEq

/-- Modelled from the spec: the backend PATCH `/api/status/:barcode` handler
behind `statusApi.updateProductStatus` (`api.ts` lines 277-284) is not among
the sources; per the spec (section 4.4) a successful update writes the new
`{label, explanation}` and refreshes `lastEvaluatedAt` to now. -/
def updateStatusBackend (payload : StatusUpdatePayload) (now : Int) : StoredStatus :=
  { label := payload.status, explanation := payload.explanation,
    lastEvaluatedAt := now }

/-! External catalog fallback: `fetchProductFromOpenFoodFacts`
(`UserSearchResultItem.tsx` lines 146-190) and the `recordScan` mutation
`onError` routing (lines 335-387). -/

/-- JavaScript `a || b` on strings: the left operand unless it is falsy
(empty). Used for the ordered preference chains in the normalization code. -/
def jsOr (a b : String) : String :=
  if a = "" then b else a

/-- The fields of an Open Food Facts `product` object that the
normalization at `UserSearchResultItem.tsx` lines 166-171 reads.
`""` models an absent/falsy field. -/
structure OffProduct where
  product_name : String
  product_name_en : String
  name : String
  ingredients_text_with_allergens : String
  ingredients_text : String
  ingredients_text_en : String
  ingredients_text_debug : String
  image_front_url : String
  image_url : String
  image_small_url : String
deriving Repr, DecidableEq

/-- The parsed Open Food Facts response body (`offData`): its `status`
field (`none` when absent, compared against 0 with `===` at line 161) and
its optional `product` object. -/
structure OffData where
  status : Option Int
  product : Option OffProduct
deriving Repr, DecidableEq

/-- The `reason` strings `fetchProductFromOpenFoodFacts` can return. -/
inductive OffReason where
  | OFF_NOT_FOUND
  | OFF_API_ERROR
  | AUTH_ERROR
  | DB_SAVE_FAILED
  | ERROR
deriving Repr, DecidableEq

/-- The product record the backend returns from a create; its contents are
opaque to the resolution flow, which only passes it along as `productData`. -/
structure BackendProduct where
  barcode : String
deriving Repr, DecidableEq

/-- The `{ success, reason?, message?, productData? }` object
`fetchProductFromOpenFoodFacts` resolves with (line 146). -/
structure OffResult where
  success : Bool
  reason : Option OffReason
  message : Option String
  productData : Option BackendProduct
deriving Repr, DecidableEq

/-- The body sent to `productApi.createProduct`
(`UserSearchResultItem.tsx` lines 166-171 and 581-586). -/
structure ProductPayload where
  barcode : String
  name : String
  ingredients : String
  pictureUrl : String
deriving Repr, DecidableEq

/-- Everything observable about one `fetchProductFromOpenFoodFacts` run:
its resolved value, how many `productApi.createProduct` calls it made and
with which payload, and how many `productApi.getProduct` re-reads it made
(the source contains no such call on this path, so the embedding can only
ever report zero). -/
structure OffFetchOutcome where
  result : OffResult
  createCalls : Nat
  createPayload : Option ProductPayload
  readCalls : Nat
deriving Repr, DecidableEq

/-- Embedding of `fetchProductFromOpenFoodFacts` (`UserSearchResultItem.tsx`
lines 146-190). `offResponse` is the awaited `openFoodFactsApi.getProduct`
result and `createResponse` the awaited `productApi.createProduct` result.
An error response with HTTP 404 is `OFF_NOT_FOUND`; any other error
response (network failure is status 0, an unparseable body is caught by
`apiFetch` and also status 0) is `OFF_API_ERROR` with the error message.
A body whose `status` is 0 or that lacks a `product` is `OFF_NOT_FOUND`.
A missing body makes the property access at line 161 throw, landing in the
catch at line 186 as reason `ERROR`. Otherwise the payload is normalized
through the `||` preference chains and persisted via `createProduct`. -/
def fetchProductFromOpenFoodFacts (barcode : String) (authToken : Option String)
    (offResponse : ApiResponse OffData)
    (createResponse : ApiResponse BackendProduct) : OffFetchOutcome :=
  match offResponse.error with
  | some msg =>
    if offResponse.status = 404 then
      { result := { success := false, reason := some .OFF_NOT_FOUND,
                    message := none, productData := none },
        createCalls := 0, createPayload := none, readCalls := 0 }
    else
      { result := { success := false, reason := some .OFF_API_ERROR,
                    message := some msg, productData := none },
        createCalls := 0, createPayload := none, readCalls := 0 }
  | none =>
    match offResponse.data with
    | none =>
      { result := { success := false, reason := some .ERROR,
                    message := some "Cannot read properties of null",
                    productData := none },
        createCalls := 0, createPayload := none, readCalls := 0 }
    | some offData =>
      if offData.status = some 0 || offData.product.isNone then
        { result := { success := false, reason := some .OFF_NOT_FOUND,
                      message := none, productData := none },
          createCalls := 0, createPayload := none, readCalls := 0 }
      else
        match offData.product with
        | none =>
          { result := { success := false, reason := some .OFF_NOT_FOUND,
                        message := none, productData := none },
            createCalls := 0, createPayload := none, readCalls := 0 }
        | some p =>
          let productPayload : ProductPayload :=
            { barcode := barcode
              name := jsOr p.product_name (jsOr p.product_name_en
                (jsOr p.name "Unknown Product"))
              ingredients := jsOr p.ingredients_text_with_allergens
                (jsOr p.ingredients_text (jsOr p.ingredients_text_en
                  (jsOr p.ingredients_text_debug "")))
              pictureUrl := jsOr p.image_front_url
                (jsOr p.image_url (jsOr p.image_small_url "")) }
          match authToken with
          | none =>
            { result := { success := false, reason := some .AUTH_ERROR,
                          message := some
                            "Authentication token not found for saving product.",
                          productData := none },
              createCalls := 0, createPayload := none, readCalls := 0 }
          | some _ =>
            match createResponse.error with
            | some msg =>
              { result := { success := false, reason := some .DB_SAVE_FAILED,
                            message := some
                              ("Failed to save product to our DB: " ++ msg),
                            productData := none },
                createCalls := 1, createPayload := some productPayload,
                readCalls := 0 }
            | none =>
              { result := { success := true, reason := none, message := none,
                            productData := createResponse.data },
                createCalls := 1, createPayload := some productPayload,
                readCalls := 0 }

/-- What the `isProductNotFound` branch of the `recordScan` mutation
`onError` handler does with the resolved `offResult`
(`UserSearchResultItem.tsx` lines 350-377): re-run the scan on success,
open the community image-upload modal only on `OFF_NOT_FOUND`, and show a
destructive "Product Processing Error" toast on every other reason. -/
inductive ScanErrorUi where
  | retryScan (barcode : String)
  | showUploadModal (barcode : String)
  | errorToast (title : String) (desc : String)
deriving Repr, DecidableEq

/-- Embedding of the routing at `UserSearchResultItem.tsx` lines 350-377. -/
def handleOffResult (offResult : OffResult) (barcode : String) : ScanErrorUi :=
  if offResult.success then
    .retryScan barcode
  else if offResult.reason = some .OFF_NOT_FOUND then
    .showUploadModal barcode
  else
    .errorToast "Product Processing Error"
      (offResult.message.getD
        "Could not process product information from Open Food Facts.")

/-! Community sourcing: `handleMultipleImageUpload`
(`UserSearchResultItem.tsx` lines 536-625), the multiple-upload input
`onChange` collection (lines 786-792), and `uploadImageToServer`
(lines 69-77). -/

/-- Result of `uploadFileToS3` as consumed by `uploadImageToServer`
(`UserSearchResultItem.tsx` lines 69-77): an optional error and the
optional `data?.fileUrl`. -/
structure S3UploadResult where
  error : Option String
  fileUrl : Option String
deriving Repr, DecidableEq

/-- Embedding of `uploadImageToServer` (lines 69-77): throws the error
message when the upload reports one, otherwise returns
`uploadResult.data?.fileUrl || ''`. -/
def uploadImageToServer (uploadResult : S3UploadResult) : Except String String :=
  match uploadResult.error with
  | some e => .error e
  | none => .ok (uploadResult.fileUrl.getD "")

/-- The `product` object inside a successful `geminiApi.generateProductInfo`
response (`api.ts` lines 381-387), with `""` for falsy fields. -/
structure GeminiProduct where
  name : String
  ingredients : String
deriving Repr, DecidableEq

/-- The `data` payload of a `geminiApi.generateProductInfo` response. -/
structure GeminiGenData where
  success : Bool
  product : Option GeminiProduct
deriving Repr, DecidableEq

/-- Embedding of the multiple-upload input `onChange` handler
(`UserSearchResultItem.tsx` lines 786-792): when at least one file was
picked, append the files to the previously collected ones and keep only
the first 8 (`[...prev, ...files].slice(0, 8)`). -/
def addUploadedImages (prev files : List String) : List String :=
  if files.length > 0 then (prev ++ files).take 8 else prev

/-- Everything observable about one `handleMultipleImageUpload` run:
which terminal toast it showed (the "More Images Needed" validation toast,
the missing-barcode error toast, the "AI Product Creation Failed" failure
toast, or the "Product Added with AI!" success toast), how many Extractor
(`geminiApi.generateProductInfo`) calls, S3 uploads and
`productApi.createProduct` calls it made, the create payload, and the
barcode it re-scans on success. -/
structure CommunityOutcome where
  validationToast : Bool
  barcodeErrorToast : Bool
  failureToast : Bool
  successToast : Bool
  extractorCalls : Nat
  objectStoreCalls : Nat
  createCalls : Nat
  createPayload : Option ProductPayload
  rescanBarcode : Option String
deriving Repr, DecidableEq

/-- Embedding of `handleMultipleImageUpload` (`UserSearchResultItem.tsx`
lines 536-625). `uploadedImages` abstracts the collected `File` blobs;
`geminiResponse`, `uploadResult` and `createResponse` are the awaited
results of the Extractor call, the S3 upload of the first image and the
backend product create. Fewer than 4 images or a missing barcode return
before any call; otherwise the Extractor is called once, then on its
success the first image is uploaded once, then a missing token throws,
then the product is created once; every throw lands in the catch at
line 606 which shows the failure toast. -/
def handleMultipleImageUpload (uploadedImages : List String)
    (currentBarcodeForUpload : Option String) (token : Option String)
    (geminiResponse : ApiResponse GeminiGenData) (uploadResult : S3UploadResult)
    (createResponse : ApiResponse BackendProduct) : CommunityOutcome :=
  if uploadedImages.length < 4 then
    { validationToast := true, barcodeErrorToast := false, failureToast := false,
      successToast := false, extractorCalls := 0, objectStoreCalls := 0,
      createCalls := 0, createPayload := none, rescanBarcode := none }
  else
    match currentBarcodeForUpload with
    | none =>
      { validationToast := false, barcodeErrorToast := true, failureToast := false,
        successToast := false, extractorCalls := 0, objectStoreCalls := 0,
        createCalls := 0, createPayload := none, rescanBarcode := none }
    | some barcode =>
      match geminiResponse.error with
      | some _ =>
        { validationToast := false, barcodeErrorToast := false,
          failureToast := true, successToast := false, extractorCalls := 1,
          objectStoreCalls := 0, createCalls := 0, createPayload := none,
          rescanBarcode := none }
      | none =>
        match geminiResponse.data with
        | none =>
          { validationToast := false, barcodeErrorToast := false,
            failureToast := true, successToast := false, extractorCalls := 1,
            objectStoreCalls := 0, createCalls := 0, createPayload := none,
            rescanBarcode := none }
        | some d =>
          if !d.success || d.product.isNone then
            { validationToast := false, barcodeErrorToast := false,
              failureToast := true, successToast := false, extractorCalls := 1,
              objectStoreCalls := 0, createCalls := 0, createPayload := none,
              rescanBarcode := none }
          else
            match d.product with
            | none =>
              { validationToast := false, barcodeErrorToast := false,
                failureToast := true, successToast := false, extractorCalls := 1,
                objectStoreCalls := 0, createCalls := 0, createPayload := none,
                rescanBarcode := none }
            | some geminiProduct =>
              match uploadImageToServer uploadResult with
              | .error _ =>
                { validationToast := false, barcodeErrorToast := false,
                  failureToast := true, successToast := false,
                  extractorCalls := 1, objectStoreCalls := 1, createCalls := 0,
                  createPayload := none, rescanBarcode := none }
              | .ok firstImageUrl =>
                let productPayload : ProductPayload :=
                  { barcode := barcode
                    name := jsOr geminiProduct.name "Unknown Product (from AI)"
                    ingredients := jsOr geminiProduct.ingredients ""
                    pictureUrl := firstImageUrl }
                match token with
                | none =>
                  { validationToast := false, barcodeErrorToast := false,
                    failureToast := true, successToast := false,
                    extractorCalls := 1, objectStoreCalls := 1, createCalls := 0,
                    createPayload := none, rescanBarcode := none }
                | some _ =>
                  match createResponse.error with
                  | some _ =>
                    { validationToast := false, barcodeErrorToast := false,
                      failureToast := true, successToast := false,
                      extractorCalls := 1, objectStoreCalls := 1,
                      createCalls := 1, createPayload := some productPayload,
                      rescanBarcode := none }
                  | none =>
                    { validationToast := false, barcodeErrorToast := false,
                      failureToast := false, successToast := true,
                      extractorCalls := 1, objectStoreCalls := 1,
                      createCalls := 1, createPayload := some productPayload,
                      rescanBarcode := some barcode }

/-! Spec-modelled backend pieces. The Node/Express backend package
`GlutenPeekBackend` named by the repository README is not among the
sources; only its HTTP clients are. The repository's own `Product` type
(`types.ts`) declares `ingredients : string[]`, so the backend turns the
text blob the frontend sends into a sequence. -/

/-- Whitespace trimming on a character list, used by the spec-modelled
ingredient normalization. -/
def trimChars (l : List Char) : List Char :=
  ((l.dropWhile Char.isWhitespace).reverse.dropWhile Char.isWhitespace).reverse

/-- Modelled from the spec: the backend normalization of an ingredients
text blob into an ordered sequence (spec section 3, "both forms must be
accepted from external sources and normalized to a sequence"; section 8
scenario "oats, honey, wheat flour" becomes the three-element sequence).
The blob is split on commas and each piece trimmed; an empty blob yields
the empty sequence. -/
def normalizeIngredients (text : String) : List String :=
  if text = "" then []
  else (text.data.splitOn ',').map fun chars => String.mk (trimChars chars)

/-- Modelled from the spec: the stored Product record the backend
CatalogStore keeps (spec section 3). -/
structure StoredProduct where
  barcode : String
  name : String
  ingredients : List String
  pictureUrl : String
  status : StoredStatus
deriving Repr, DecidableEq

/-- Modelled from the spec: the backend POST `/api/products` handler behind
`productApi.createProduct` (`api.ts` lines 242-248) is not among the
sources; per the spec (sections 3, 4.2, 4.3 and the section 8 scenario) a
create normalizes the ingredients blob to a sequence and initializes the
status to label "unknown" pending first classification, with
`lastEvaluatedAt` set at creation time. -/
def createProductBackend (payload : ProductPayload) (now : Int) : StoredProduct :=
  { barcode := payload.barcode
    name := payload.name
    ingredients := normalizeIngredients payload.ingredients
    pictureUrl := payload.pictureUrl
    status := { label := "unknown", explanation := "", lastEvaluatedAt := now } }

/-- Modelled from the spec: the error response the backend create sends
when a record with the same barcode already exists
(`CatalogStore.create -> Product | ConflictExists`, spec section 6; an
HTTP conflict is an error response, so `apiFetch` reports it through
`handleApiError` with the conflict status). -/
def conflictCreateResponse : ApiResponse BackendProduct :=
  { data := none, error := some "ConflictExists: product already exists",
    status := 409 }

/-! Scan success path: the `recordScan` mutation `onSuccess` handler
(`UserSearchResultItem.tsx` lines 299-334). -/

/-- The user-visible and store-visible events the `onSuccess` handler emits,
in program order: the "Scan Recorded!" toast (line 300), then — only when
the product data passes the guard at line 308 — the events of the awaited
`checkAndProcessGlutenStatus` run: its Classifier call, its status-update
call, and its update/failure toasts. -/
inductive ScanEvent where
  | scanRecordedToast (barcode : String)
  | classifierCall
  | statusUpdateCall
  | aiUpdateToast
  | aiFailToast
deriving Repr, DecidableEq

/-- The events of one `checkAndProcessGlutenStatus` run, in the order the
source performs them: the Classifier call, then the status-update call,
then the update notification or the failure toast. -/
def stalenessEvents (out : StalenessOutcome) : List ScanEvent :=
  List.replicate out.classifierCalls .classifierCall ++
    List.replicate out.updateCalls .statusUpdateCall ++
    (if out.updateToast then [.aiUpdateToast] else []) ++
    (if out.failToast then [.aiFailToast] else [])

/-- The mutation success value used by `onSuccess`: the scanned barcode and
the attached product. `ingredientsIsString` models the
`typeof data.product.ingredients === 'string'` conjunct of the guard at
line 308. -/
structure ScanSuccessData where
  productBarcode : String
  product : Option ProductInScan
  ingredientsIsString : Bool
deriving Repr, DecidableEq

/-- Embedding of the `recordScan` mutation `onSuccess` handler
(`UserSearchResultItem.tsx` lines 299-334) as its ordered event trace:
the "Scan Recorded!" toast is emitted first (line 300), and only then is
the background gluten-status check performed, guarded by line 308. -/
def recordScanOnSuccess (data : ScanSuccessData) (token : Option String)
    (now : Int) (gemini : ApiResponse GlutenCheckData)
    (update : ApiResponse ProductStatus) : List ScanEvent :=
  .scanRecordedToast data.productBarcode ::
    (match data.product with
     | some p =>
       if p.createdAt.isSome && p.status.isSome && data.ingredientsIsString then
         stalenessEvents (checkAndProcessGlutenStatus p token now gemini update)
       else []
     | none => [])

/-- Ordered preference list as the spec words it: the first non-empty
string of the list, or the default when all entries are empty. Stated
separately from the source's `||` chains so the normalization can be
compared against the spec's wording. -/
def firstNonEmpty (l : List String) (d : String) : String :=
  match l with
  | [] => d
  | s :: rest => if s = "" then firstNonEmpty rest d else s

/-! Theorems. -/

/-- C3: for every resolved product carrying a creation timestamp and a
status object, a staleness check on a product last evaluated less than
7 days ago makes zero Classifier calls and performs no status write, and
one on a product at least 7 days old invokes the Classifier exactly once. -/
theorem freshProduct_noClassifierCall
    (product : ProductInScan) (authToken : Option String) (now created : Int)
    (st : ProductStatus)
    (hc : product.createdAt = some created) (hs : product.status = some st)
    (gemini : ApiResponse GlutenCheckData) (update : ApiResponse ProductStatus) :
    (now - created < msPerWeek →
      (checkAndProcessGlutenStatus product authToken now gemini update).classifierCalls = 0 ∧
      (checkAndProcessGlutenStatus product authToken now gemini update).updateCalls = 0) ∧
    (msPerWeek ≤ now - created →
      (checkAndProcessGlutenStatus product authToken now gemini update).classifierCalls = 1) := by
  unfold checkAndProcessGlutenStatus
  rw [hc, hs]
  constructor
  · intro h
    have hfresh : now - msPerWeek < created := by omega
    simp [hfresh]
  · intro h
    have hstale : ¬(now - msPerWeek < created) := by omega
    simp only [hstale, if_false]
    cases glutenCheckTry st authToken gemini update <;> simp

/-- Witness for C3 at a concrete input: a product evaluated 799999 ms ago
triggers no Classifier call and no status write. -/
theorem freshProduct_noClassifierCall_witness :
    (checkAndProcessGlutenStatus
        ⟨"0001", "Granola Bar", "oats", some 604000001, some ⟨"unknown", none⟩⟩
        none 604800000 ⟨none, some "network error", 0⟩
        ⟨none, none, 200⟩).classifierCalls = 0 ∧
    (checkAndProcessGlutenStatus
        ⟨"0001", "Granola Bar", "oats", some 604000001, some ⟨"unknown", none⟩⟩
        none 604800000 ⟨none, some "network error", 0⟩
        ⟨none, none, 200⟩).updateCalls = 0 :=
  (freshProduct_noClassifierCall
      ⟨"0001", "Granola Bar", "oats", some 604000001, some ⟨"unknown", none⟩⟩
      none 604800000 604000001 ⟨"unknown", none⟩ rfl rfl
      ⟨none, some "network error", 0⟩ ⟨none, none, 200⟩).1 (by decide)

/-- C1 (amended): whenever the Classifier call yields an error result —
which is the case for every thrown fetch or body-parse error, every
non-OK HTTP response, and a missing API key — the staleness check performs
no status-update call and returns the stored status unchanged. The
original claim also listed an HTTP-200 response whose text cannot be
parsed as a failure mode; the code instead reports that case as a
successful "unknown" classification, which can overwrite the stored label
(see the counterexample). -/
theorem classifierFailure_retainsStatus
    (product : ProductInScan) (authToken : Option String) (now created : Int)
    (st : ProductStatus)
    (hc : product.createdAt = some created) (hs : product.status = some st)
    (gemini : ApiResponse GlutenCheckData) (update : ApiResponse ProductStatus)
    (hfail : gemini.error.isSome) :
    ((checkAndProcessGlutenStatus product authToken now gemini update).updateCalls = 0 ∧
     (checkAndProcessGlutenStatus product authToken now gemini update).updatePayload = none ∧
     (checkAndProcessGlutenStatus product authToken now gemini update).result = some st) ∧
    (∀ (k : Bool) (msg : String),
      (checkGlutenStatus k (.threw msg)).error.isSome) ∧
    (∀ (k : Bool) (s : Nat) (msg : String),
      (checkGlutenStatus k (.notOk s msg)).error.isSome) := by
  refine ⟨?_, ?_, ?_⟩
  · unfold checkAndProcessGlutenStatus
    rw [hc, hs]
    by_cases hfresh : now - msPerWeek < created
    · simp [hfresh]
    · simp only [hfresh, if_false]
      obtain ⟨msg, hmsg⟩ := Option.isSome_iff_exists.mp hfail
      unfold glutenCheckTry
      rw [hmsg]
      simp
  · intro k msg
    cases k <;> simp [checkGlutenStatus]
  · intro k s msg
    cases k <;> simp [checkGlutenStatus]

/-- Witness for C1's amended theorem at a concrete input: a stale product
whose Classifier call came back as a network error keeps its stored
gluten-free status and triggers no status write. -/
theorem classifierFailure_retainsStatus_witness :
    ((checkAndProcessGlutenStatus
        ⟨"0001", "Granola Bar", "oats", some 0, some ⟨"gluten-free", some "verified"⟩⟩
        (some "token") 604800000 ⟨none, some "network error", 0⟩
        ⟨none, none, 200⟩).updateCalls = 0 ∧
     (checkAndProcessGlutenStatus
        ⟨"0001", "Granola Bar", "oats", some 0, some ⟨"gluten-free", some "verified"⟩⟩
        (some "token") 604800000 ⟨none, some "network error", 0⟩
        ⟨none, none, 200⟩).updatePayload = none ∧
     (checkAndProcessGlutenStatus
        ⟨"0001", "Granola Bar", "oats", some 0, some ⟨"gluten-free", some "verified"⟩⟩
        (some "token") 604800000 ⟨none, some "network error", 0⟩
        ⟨none, none, 200⟩).result = some ⟨"gluten-free", some "verified"⟩) :=
  (classifierFailure_retainsStatus
      ⟨"0001", "Granola Bar", "oats", some 0, some ⟨"gluten-free", some "verified"⟩⟩
      (some "token") 604800000 0 ⟨"gluten-free", some "verified"⟩ rfl rfl
      ⟨none, some "network error", 0⟩ ⟨none, none, 200⟩ rfl).1

/-- C1 counterexample: an HTTP-200 Classifier response whose text contains
no parseable JSON and no status keyword — a response that cannot be parsed,
one of the failure modes the claim lists — is reported as a successful
"unknown" classification, so the staleness check on a stale product whose
stored label is "gluten-free" performs a status write that rewrites the
label to "unknown", contradicting the claim's "the stored status label and
explanation are retained unchanged". -/
theorem unparseableResponse_overwritesStatus :
    (checkAndProcessGlutenStatus
        ⟨"0001", "Granola Bar", "oats", some 0, some ⟨"gluten-free", some "verified"⟩⟩
        (some "token") 604800000
        (checkGlutenStatus true (.okBody "" ⟨none, none, none⟩))
        ⟨some ⟨"unknown", some "Unable to determine from AI response"⟩, none, 200⟩).updateCalls = 1 ∧
    (checkAndProcessGlutenStatus
        ⟨"0001", "Granola Bar", "oats", some 0, some ⟨"gluten-free", some "verified"⟩⟩
        (some "token") 604800000
        (checkGlutenStatus true (.okBody "" ⟨none, none, none⟩))
        ⟨some ⟨"unknown", some "Unable to determine from AI response"⟩, none, 200⟩).updatePayload =
      some ⟨"unknown", "Unable to determine from AI response"⟩ ∧
    (checkAndProcessGlutenStatus
        ⟨"0001", "Granola Bar", "oats", some 0, some ⟨"gluten-free", some "verified"⟩⟩
        (some "token") 604800000
        (checkGlutenStatus true (.okBody "" ⟨none, none, none⟩))
        ⟨some ⟨"unknown", some "Unable to determine from AI response"⟩, none, 200⟩).result =
      some ⟨"unknown", some "Unable to determine from AI response"⟩ := by
  decide

/-- C6: for every stale product whose Classifier call succeeds with a label
different from the stored one, given an auth token and a successful backend
update, the staleness step makes exactly one `updateProductStatus` call
carrying the new label and explanation, emits the "AI Gluten Check" update
notification, returns the backend's new status object, and the
(spec-modelled) backend write refreshes `lastEvaluatedAt` to now. -/
theorem staleChangedLabel_updatesStatus
    (product : ProductInScan) (tok : String) (now created : Int)
    (st : ProductStatus) (d : GlutenCheckData)
    (hc : product.createdAt = some created) (hs : product.status = some st)
    (hstale : msPerWeek ≤ now - created)
    (gemini : ApiResponse GlutenCheckData) (update : ApiResponse ProductStatus)
    (hge : gemini.error = none) (hgd : gemini.data = some d)
    (hsucc : d.success = true) (hnz : d.glutenFreeStatus ≠ "")
    (hdiff : d.glutenFreeStatus ≠ st.status)
    (hue : update.error = none) :
    (checkAndProcessGlutenStatus product (some tok) now gemini update).updateCalls = 1 ∧
    (checkAndProcessGlutenStatus product (some tok) now gemini update).updatePayload =
      some ⟨d.glutenFreeStatus, d.explanation⟩ ∧
    (checkAndProcessGlutenStatus product (some tok) now gemini update).updateToast = true ∧
    (checkAndProcessGlutenStatus product (some tok) now gemini update).result = update.data ∧
    updateStatusBackend ⟨d.glutenFreeStatus, d.explanation⟩ now =
      ⟨d.glutenFreeStatus, d.explanation, now⟩ := by
  have hfresh : ¬(now - msPerWeek < created) := by omega
  unfold checkAndProcessGlutenStatus
  rw [hc, hs]
  simp only [hfresh, if_false]
  unfold glutenCheckTry
  rw [hge, hgd, hue]
  simp [hsucc, hnz, hdiff, updateStatusBackend]

/-- Witness for C6 at a concrete input: a product last evaluated exactly
7 days ago with stored label "gluten-free" and a Classifier answer
"contains-gluten" gets one update call with the new label and explanation
and the update notification. -/
theorem staleChangedLabel_updatesStatus_witness :
    (checkAndProcessGlutenStatus
        ⟨"0001", "Granola Bar", "wheat flour", some 0, some ⟨"gluten-free", none⟩⟩
        (some "token") 604800000
        ⟨some ⟨true, "contains-gluten", "wheat flour contains gluten"⟩, none, 200⟩
        ⟨some ⟨"contains-gluten", some "wheat flour contains gluten"⟩, none, 200⟩).updateCalls = 1 ∧
    (checkAndProcessGlutenStatus
        ⟨"0001", "Granola Bar", "wheat flour", some 0, some ⟨"gluten-free", none⟩⟩
        (some "token") 604800000
        ⟨some ⟨true, "contains-gluten", "wheat flour contains gluten"⟩, none, 200⟩
        ⟨some ⟨"contains-gluten", some "wheat flour contains gluten"⟩, none, 200⟩).updatePayload =
      some ⟨"contains-gluten", "wheat flour contains gluten"⟩ ∧
    (checkAndProcessGlutenStatus
        ⟨"0001", "Granola Bar", "wheat flour", some 0, some ⟨"gluten-free", none⟩⟩
        (some "token") 604800000
        ⟨some ⟨true, "contains-gluten", "wheat flour contains gluten"⟩, none, 200⟩
        ⟨some ⟨"contains-gluten", some "wheat flour contains gluten"⟩, none, 200⟩).updateToast = true ∧
    (checkAndProcessGlutenStatus
        ⟨"0001", "Granola Bar", "wheat flour", some 0, some ⟨"gluten-free", none⟩⟩
        (some "token") 604800000
        ⟨some ⟨true, "contains-gluten", "wheat flour contains gluten"⟩, none, 200⟩
        ⟨some ⟨"contains-gluten", some "wheat flour contains gluten"⟩, none, 200⟩).result =
      some ⟨"contains-gluten", some "wheat flour contains gluten"⟩ ∧
    updateStatusBackend ⟨"contains-gluten", "wheat flour contains gluten"⟩ 604800000 =
      ⟨"contains-gluten", "wheat flour contains gluten", 604800000⟩ :=
  staleChangedLabel_updatesStatus
    ⟨"0001", "Granola Bar", "wheat flour", some 0, some ⟨"gluten-free", none⟩⟩
    "token" 604800000 0 ⟨"gluten-free", none⟩
    ⟨true, "contains-gluten", "wheat flour contains gluten"⟩ rfl rfl (by decide)
    ⟨some ⟨true, "contains-gluten", "wheat flour contains gluten"⟩, none, 200⟩
    ⟨some ⟨"contains-gluten", some "wheat flour contains gluten"⟩, none, 200⟩
    rfl rfl rfl (by decide) (by decide) rfl

/-- C2: for every external-catalog lookup that ends in an error response
other than HTTP 404 — non-404 HTTP failures, network failures (status 0)
and unparseable bodies (caught by `apiFetch`, also status 0) — the
resolution reports the distinct reason `OFF_API_ERROR` (not
`OFF_NOT_FOUND`), creates no product, and the error routing shows a
"Product Processing Error" toast instead of opening the community
image-upload modal. -/
theorem upstreamError_noCommunitySourcing
    (barcode : String) (authToken : Option String)
    (offResponse : ApiResponse OffData) (createResponse : ApiResponse BackendProduct)
    (msg : String) (herr : offResponse.error = some msg)
    (h404 : offResponse.status ≠ 404) :
    (fetchProductFromOpenFoodFacts barcode authToken offResponse createResponse).result.reason =
      some .OFF_API_ERROR ∧
    (fetchProductFromOpenFoodFacts barcode authToken offResponse createResponse).result.success =
      false ∧
    (fetchProductFromOpenFoodFacts barcode authToken offResponse createResponse).result.message =
      some msg ∧
    (fetchProductFromOpenFoodFacts barcode authToken offResponse createResponse).createCalls = 0 ∧
    handleOffResult
        (fetchProductFromOpenFoodFacts barcode authToken offResponse createResponse).result
        barcode =
      .errorToast "Product Processing Error" msg ∧
    OffReason.OFF_API_ERROR ≠ OffReason.OFF_NOT_FOUND := by
  unfold fetchProductFromOpenFoodFacts
  rw [herr]
  simp [h404, handleOffResult]

/-- Witness for C2 at a concrete input: an HTTP 500 from the external
catalog yields `OFF_API_ERROR`, zero create calls, and the error toast
rather than the upload modal. -/
theorem upstreamError_noCommunitySourcing_witness :
    (fetchProductFromOpenFoodFacts "0001" (some "token")
        ⟨none, some "API error: 500", 500⟩ ⟨none, none, 200⟩).result.reason =
      some .OFF_API_ERROR ∧
    (fetchProductFromOpenFoodFacts "0001" (some "token")
        ⟨none, some "API error: 500", 500⟩ ⟨none, none, 200⟩).result.success = false ∧
    (fetchProductFromOpenFoodFacts "0001" (some "token")
        ⟨none, some "API error: 500", 500⟩ ⟨none, none, 200⟩).result.message =
      some "API error: 500" ∧
    (fetchProductFromOpenFoodFacts "0001" (some "token")
        ⟨none, some "API error: 500", 500⟩ ⟨none, none, 200⟩).createCalls = 0 ∧
    handleOffResult
        (fetchProductFromOpenFoodFacts "0001" (some "token")
          ⟨none, some "API error: 500", 500⟩ ⟨none, none, 200⟩).result "0001" =
      .errorToast "Product Processing Error" "API error: 500" ∧
    OffReason.OFF_API_ERROR ≠ OffReason.OFF_NOT_FOUND :=
  upstreamError_noCommunitySourcing "0001" (some "token")
    ⟨none, some "API error: 500", 500⟩ ⟨none, none, 200⟩ "API error: 500" rfl
    (by decide)

/-- C8 (amended): when `productApi.createProduct` comes back as an error
response while a resolution is persisting an externally-found product — in
particular for the spec-modelled uniqueness-conflict response — the
resolver reports reason `DB_SAVE_FAILED`, performs no re-read of the
existing record, does not treat the resolution as successful, and the
error routing surfaces a "Product Processing Error" toast to the caller. -/
theorem createError_notTreatedFoundLocal
    (barcode tok msg : String) (offResponse : ApiResponse OffData)
    (offData : OffData) (p : OffProduct)
    (createResponse : ApiResponse BackendProduct)
    (hoe : offResponse.error = none) (hod : offResponse.data = some offData)
    (hst : offData.status ≠ some 0) (hp : offData.product = some p)
    (hce : createResponse.error = some msg) :
    (fetchProductFromOpenFoodFacts barcode (some tok) offResponse createResponse).result.reason =
      some .DB_SAVE_FAILED ∧
    (fetchProductFromOpenFoodFacts barcode (some tok) offResponse createResponse).result.success =
      false ∧
    (fetchProductFromOpenFoodFacts barcode (some tok) offResponse createResponse).readCalls = 0 ∧
    handleOffResult
        (fetchProductFromOpenFoodFacts barcode (some tok) offResponse createResponse).result
        barcode =
      .errorToast "Product Processing Error"
        ("Failed to save product to our DB: " ++ msg) ∧
    conflictCreateResponse.error = some "ConflictExists: product already exists" := by
  simp only [fetchProductFromOpenFoodFacts, hoe, hod]
  simp [hst, hp, hce, handleOffResult, conflictCreateResponse]

/-- Witness for C8's amended theorem: the concrete conflict response is
routed to `DB_SAVE_FAILED` with an error toast and no re-read. -/
theorem createError_notTreatedFoundLocal_witness :
    (fetchProductFromOpenFoodFacts "0001" (some "token")
        ⟨some ⟨some 1, some ⟨"Granola Bar", "", "", "", "oats", "", "", "", "", ""⟩⟩, none, 200⟩
        conflictCreateResponse).result.reason = some .DB_SAVE_FAILED ∧
    (fetchProductFromOpenFoodFacts "0001" (some "token")
        ⟨some ⟨some 1, some ⟨"Granola Bar", "", "", "", "oats", "", "", "", "", ""⟩⟩, none, 200⟩
        conflictCreateResponse).result.success = false ∧
    (fetchProductFromOpenFoodFacts "0001" (some "token")
        ⟨some ⟨some 1, some ⟨"Granola Bar", "", "", "", "oats", "", "", "", "", ""⟩⟩, none, 200⟩
        conflictCreateResponse).readCalls = 0 ∧
    handleOffResult
        (fetchProductFromOpenFoodFacts "0001" (some "token")
          ⟨some ⟨some 1, some ⟨"Granola Bar", "", "", "", "oats", "", "", "", "", ""⟩⟩, none, 200⟩
          conflictCreateResponse).result "0001" =
      .errorToast "Product Processing Error"
        ("Failed to save product to our DB: " ++
          "ConflictExists: product already exists") ∧
    conflictCreateResponse.error = some "ConflictExists: product already exists" :=
  createError_notTreatedFoundLocal "0001" "token"
    "ConflictExists: product already exists"
    ⟨some ⟨some 1, some ⟨"Granola Bar", "", "", "", "oats", "", "", "", "", ""⟩⟩, none, 200⟩
    ⟨some 1, some ⟨"Granola Bar", "", "", "", "oats", "", "", "", "", ""⟩⟩
    ⟨"Granola Bar", "", "", "", "oats", "", "", "", "", ""⟩
    conflictCreateResponse rfl rfl (by decide) rfl rfl

/-- C8 counterexample: with the spec-modelled uniqueness-conflict response
from `CatalogStore.create`, the resolver does not re-read the record and
does not treat the resolution as `FoundLocal`; it surfaces a destructive
"Product Processing Error" toast to the caller, contradicting the claim's
"the conflict is never surfaced as an error to the caller". -/
theorem createConflict_surfacedAsError :
    (fetchProductFromOpenFoodFacts "0001" (some "token")
        ⟨some ⟨some 1, some ⟨"Granola Bar", "", "", "", "oats", "", "", "", "", ""⟩⟩, none, 200⟩
        conflictCreateResponse).result.success = false ∧
    handleOffResult
        (fetchProductFromOpenFoodFacts "0001" (some "token")
          ⟨some ⟨some 1, some ⟨"Granola Bar", "", "", "", "oats", "", "", "", "", ""⟩⟩, none, 200⟩
          conflictCreateResponse).result "0001" =
      .errorToast "Product Processing Error"
        "Failed to save product to our DB: ConflictExists: product already exists" ∧
    (fetchProductFromOpenFoodFacts "0001" (some "token")
        ⟨some ⟨some 1, some ⟨"Granola Bar", "", "", "", "oats", "", "", "", "", ""⟩⟩, none, 200⟩
        conflictCreateResponse).readCalls = 0 := by
  decide

/-- C7: for every Found result from the external catalog, the normalized
product candidate takes its name from the ordered preference list
`product_name`, `product_name_en`, `name` with default "Unknown Product",
its ingredients text from the ordered preference list
`ingredients_text_with_allergens`, `ingredients_text`,
`ingredients_text_en`, `ingredients_text_debug` with default empty, and
its picture URL from the ordered preference list `image_front_url`,
`image_url`, `image_small_url` with default empty; the (spec-modelled)
backend create stores the normalized ingredient sequence and initializes
the status label to "unknown". -/
theorem foundExternal_normalization
    (barcode tok : String) (now : Int) (offResponse : ApiResponse OffData)
    (offData : OffData) (p : OffProduct)
    (createResponse : ApiResponse BackendProduct)
    (hoe : offResponse.error = none) (hod : offResponse.data = some offData)
    (hst : offData.status ≠ some 0) (hp : offData.product = some p) :
    ∃ payload,
      (fetchProductFromOpenFoodFacts barcode (some tok) offResponse
          createResponse).createPayload = some payload ∧
      payload.barcode = barcode ∧
      payload.name =
        firstNonEmpty [p.product_name, p.product_name_en, p.name] "Unknown Product" ∧
      payload.ingredients =
        firstNonEmpty [p.ingredients_text_with_allergens, p.ingredients_text,
          p.ingredients_text_en, p.ingredients_text_debug] "" ∧
      payload.pictureUrl =
        firstNonEmpty [p.image_front_url, p.image_url, p.image_small_url] "" ∧
      (createProductBackend payload now).status.label = "unknown" ∧
      (createProductBackend payload now).ingredients =
        normalizeIngredients payload.ingredients := by
  simp only [fetchProductFromOpenFoodFacts, hoe, hod]
  simp only [hst, hp]
  have hname :
      jsOr p.product_name (jsOr p.product_name_en (jsOr p.name "Unknown Product")) =
        firstNonEmpty [p.product_name, p.product_name_en, p.name] "Unknown Product" := by
    simp only [firstNonEmpty, jsOr]
  have hing :
      jsOr p.ingredients_text_with_allergens (jsOr p.ingredients_text
          (jsOr p.ingredients_text_en (jsOr p.ingredients_text_debug ""))) =
        firstNonEmpty [p.ingredients_text_with_allergens, p.ingredients_text,
          p.ingredients_text_en, p.ingredients_text_debug] "" := by
    simp only [firstNonEmpty, jsOr]
  have hpic :
      jsOr p.image_front_url (jsOr p.image_url (jsOr p.image_small_url "")) =
        firstNonEmpty [p.image_front_url, p.image_url, p.image_small_url] "" := by
    simp only [firstNonEmpty, jsOr]
  cases hcr : createResponse.error with
  | some msg =>
    simp [hcr, hname, hing, hpic, createProductBackend]
  | none =>
    simp [hcr, hname, hing, hpic, createProductBackend]

/-- Witness for C7 at the spec's concrete scenario: barcode "0001" with an
external record carrying only `product_name` = "Granola Bar" and
`ingredients_text` = "oats, honey, wheat flour" yields that name and
ingredients text in the payload, and the spec-modelled create stores the
ingredient sequence "oats", "honey", "wheat flour" with status label
"unknown". -/
theorem foundExternal_normalization_witness :
    (∃ payload,
      (fetchProductFromOpenFoodFacts "0001" (some "token")
          ⟨some ⟨some 1, some ⟨"Granola Bar", "", "", "", "oats, honey, wheat flour",
            "", "", "", "", ""⟩⟩, none, 200⟩
          ⟨some ⟨"0001"⟩, none, 200⟩).createPayload = some payload ∧
      payload.barcode = "0001" ∧
      payload.name = firstNonEmpty ["Granola Bar", "", ""] "Unknown Product" ∧
      payload.ingredients =
        firstNonEmpty ["", "oats, honey, wheat flour", "", ""] "" ∧
      payload.pictureUrl = firstNonEmpty ["", "", ""] "" ∧
      (createProductBackend payload 0).status.label = "unknown" ∧
      (createProductBackend payload 0).ingredients =
        normalizeIngredients payload.ingredients) ∧
    normalizeIngredients "oats, honey, wheat flour" = ["oats", "honey", "wheat flour"] :=
  ⟨foundExternal_normalization "0001" "token" 0
      ⟨some ⟨some 1, some ⟨"Granola Bar", "", "", "", "oats, honey, wheat flour",
        "", "", "", "", ""⟩⟩, none, 200⟩
      ⟨some 1, some ⟨"Granola Bar", "", "", "", "oats, honey, wheat flour",
        "", "", "", "", ""⟩⟩
      ⟨"Granola Bar", "", "", "", "oats, honey, wheat flour", "", "", "", "", ""⟩
      ⟨some ⟨"0001"⟩, none, 200⟩ rfl rfl (by decide) rfl,
    by decide⟩

/-- C4 (amended): submitting community images with fewer than 4 images
shows the validation toast and makes no Extractor, ObjectStore or create
call; with at least 4 images and a barcode, exactly one Extractor call is
made, and exactly one ObjectStore upload happens when the Extractor call
succeeds with a product (never more than one in any run); the image
collection handler keeps the collected sequence capped at 8. The original
claim's "exactly one ObjectStore upload" for every run with at least 4
images fails when the Extractor call fails (see the counterexample). -/
theorem communityImages_callCounts :
    (∀ (images : List String) (bc token : Option String)
        (g : ApiResponse GeminiGenData) (u : S3UploadResult)
        (c : ApiResponse BackendProduct),
      images.length < 4 →
        (handleMultipleImageUpload images bc token g u c).validationToast = true ∧
        (handleMultipleImageUpload images bc token g u c).extractorCalls = 0 ∧
        (handleMultipleImageUpload images bc token g u c).objectStoreCalls = 0 ∧
        (handleMultipleImageUpload images bc token g u c).createCalls = 0) ∧
    (∀ (images : List String) (b : String) (token : Option String)
        (g : ApiResponse GeminiGenData) (u : S3UploadResult)
        (c : ApiResponse BackendProduct),
      4 ≤ images.length →
        (handleMultipleImageUpload images (some b) token g u c).extractorCalls = 1 ∧
        (handleMultipleImageUpload images (some b) token g u c).objectStoreCalls ≤ 1 ∧
        (handleMultipleImageUpload images (some b) token g u c).createCalls ≤ 1) ∧
    (∀ (images : List String) (b : String) (token : Option String)
        (g : ApiResponse GeminiGenData) (d : GeminiGenData) (gp : GeminiProduct)
        (u : S3UploadResult) (c : ApiResponse BackendProduct),
      4 ≤ images.length → g.error = none → g.data = some d → d.success = true →
      d.product = some gp →
        (handleMultipleImageUpload images (some b) token g u c).objectStoreCalls = 1) ∧
    (∀ prev files : List String, prev.length ≤ 8 →
      (addUploadedImages prev files).length ≤ 8) := by
  refine ⟨?_, ?_, ?_, ?_⟩
  · intro images bc token g u c h
    simp [handleMultipleImageUpload, h]
  · intro images b token g u c h
    have h4 : ¬(images.length < 4) := by omega
    obtain ⟨gd, ge, gs⟩ := g
    obtain ⟨ue, uf⟩ := u
    obtain ⟨cd, ce, cs⟩ := c
    cases ge <;> cases ue <;> cases token <;> cases ce <;> cases gd <;>
      simp [handleMultipleImageUpload, h4, uploadImageToServer]
    all_goals
      split
      · simp
      · split <;> simp
  · intro images b token g d gp u c h hge hgd hds hdp
    have h4 : ¬(images.length < 4) := by omega
    obtain ⟨ue, uf⟩ := u
    obtain ⟨cd, ce, cs⟩ := c
    rcases d with ⟨ds, dp⟩
    cases ds
    · exact absurd hds (by simp)
    · cases hdp
      cases ue <;> cases token <;> cases ce <;>
        simp [handleMultipleImageUpload, h4, hge, hgd, uploadImageToServer]
  · intro prev files h
    unfold addUploadedImages
    split
    · simp
    · exact h

/-- Witness for C4's amended theorem at a concrete input: with 3 images
the validation toast is shown and no call is made. -/
theorem communityImages_callCounts_witness :
    (handleMultipleImageUpload ["a", "b", "c"] (some "0001") (some "token")
        ⟨some ⟨true, some ⟨"Granola Bar", "oats"⟩⟩, none, 200⟩ ⟨none, some "url"⟩
        ⟨some ⟨"0001"⟩, none, 200⟩).validationToast = true ∧
    (handleMultipleImageUpload ["a", "b", "c"] (some "0001") (some "token")
        ⟨some ⟨true, some ⟨"Granola Bar", "oats"⟩⟩, none, 200⟩ ⟨none, some "url"⟩
        ⟨some ⟨"0001"⟩, none, 200⟩).extractorCalls = 0 ∧
    (handleMultipleImageUpload ["a", "b", "c"] (some "0001") (some "token")
        ⟨some ⟨true, some ⟨"Granola Bar", "oats"⟩⟩, none, 200⟩ ⟨none, some "url"⟩
        ⟨some ⟨"0001"⟩, none, 200⟩).objectStoreCalls = 0 ∧
    (handleMultipleImageUpload ["a", "b", "c"] (some "0001") (some "token")
        ⟨some ⟨true, some ⟨"Granola Bar", "oats"⟩⟩, none, 200⟩ ⟨none, some "url"⟩
        ⟨some ⟨"0001"⟩, none, 200⟩).createCalls = 0 :=
  communityImages_callCounts.1 ["a", "b", "c"] (some "0001") (some "token")
    ⟨some ⟨true, some ⟨"Granola Bar", "oats"⟩⟩, none, 200⟩ ⟨none, some "url"⟩
    ⟨some ⟨"0001"⟩, none, 200⟩ (by decide)

/-- C4 counterexample: a submission with exactly 4 images whose Extractor
call fails makes one Extractor call but zero ObjectStore uploads,
contradicting the claim's "with at least 4 images ... exactly one
ObjectStore upload". -/
theorem extractorFailure_zeroObjectStoreCalls :
    (handleMultipleImageUpload ["a", "b", "c", "d"] (some "0001") (some "token")
        ⟨none, some "Gemini API failed: 500", 500⟩ ⟨none, some "url"⟩
        ⟨some ⟨"0001"⟩, none, 200⟩).extractorCalls = 1 ∧
    (handleMultipleImageUpload ["a", "b", "c", "d"] (some "0001") (some "token")
        ⟨none, some "Gemini API failed: 500", 500⟩ ⟨none, some "url"⟩
        ⟨some ⟨"0001"⟩, none, 200⟩).objectStoreCalls = 0 ∧
    (handleMultipleImageUpload ["a", "b", "c", "d"] (some "0001") (some "token")
        ⟨none, some "Gemini API failed: 500", 500⟩ ⟨none, some "url"⟩
        ⟨some ⟨"0001"⟩, none, 200⟩).objectStoreCalls ≠ 1 := by
  decide

/-- C5: for every community-sourcing submission (at least 4 images and a
barcode) in which the Extractor call fails or the ObjectStore upload of
the first image fails, no product-create call is made — the catalog is
left unchanged — and the failure is surfaced through the
"AI Product Creation Failed" toast, never the success toast. -/
theorem communityFailure_noProductCreated :
    (∀ (images : List String) (b : String) (token : Option String)
        (g : ApiResponse GeminiGenData) (u : S3UploadResult)
        (c : ApiResponse BackendProduct),
      4 ≤ images.length → g.error.isSome →
        (handleMultipleImageUpload images (some b) token g u c).createCalls = 0 ∧
        (handleMultipleImageUpload images (some b) token g u c).failureToast = true ∧
        (handleMultipleImageUpload images (some b) token g u c).successToast = false) ∧
    (∀ (images : List String) (b : String) (token : Option String)
        (g : ApiResponse GeminiGenData) (u : S3UploadResult)
        (c : ApiResponse BackendProduct),
      4 ≤ images.length → u.error.isSome →
        (handleMultipleImageUpload images (some b) token g u c).createCalls = 0 ∧
        (handleMultipleImageUpload images (some b) token g u c).successToast = false) := by
  constructor
  · intro images b token g u c h hge
    have h4 : ¬(images.length < 4) := by omega
    obtain ⟨msg, hmsg⟩ := Option.isSome_iff_exists.mp hge
    simp [handleMultipleImageUpload, h4, hmsg]
  · intro images b token g u c h hue
    have h4 : ¬(images.length < 4) := by omega
    obtain ⟨msg, hmsg⟩ := Option.isSome_iff_exists.mp hue
    obtain ⟨gd, ge, gs⟩ := g
    cases ge <;> cases gd <;>
      simp [handleMultipleImageUpload, h4, hmsg, uploadImageToServer]
    all_goals
      split
      · simp
      · split <;> simp

/-- Witness for C5 at a concrete input: 4 images with a failing S3 upload
make no create call and no success toast. -/
theorem communityFailure_noProductCreated_witness :
    (handleMultipleImageUpload ["a", "b", "c", "d"] (some "0001") (some "token")
        ⟨some ⟨true, some ⟨"Granola Bar", "oats"⟩⟩, none, 200⟩
        ⟨some "S3 upload failed", none⟩ ⟨some ⟨"0001"⟩, none, 200⟩).createCalls = 0 ∧
    (handleMultipleImageUpload ["a", "b", "c", "d"] (some "0001") (some "token")
        ⟨some ⟨true, some ⟨"Granola Bar", "oats"⟩⟩, none, 200⟩
        ⟨some "S3 upload failed", none⟩ ⟨some ⟨"0001"⟩, none, 200⟩).successToast = false :=
  communityFailure_noProductCreated.2 ["a", "b", "c", "d"] "0001" (some "token")
    ⟨some ⟨true, some ⟨"Granola Bar", "oats"⟩⟩, none, 200⟩
    ⟨some "S3 upload failed", none⟩ ⟨some ⟨"0001"⟩, none, 200⟩ (by decide) rfl

/-- Helper: the fallback extractor only ever produces one of the three
status strings. -/
lemma extract_status_cases (text : String) (ec : Option String) :
    (extractGlutenInfoFromText text ec).glutenFreeStatus = "gluten-free" ∨
    (extractGlutenInfoFromText text ec).glutenFreeStatus = "contains-gluten" ∨
    (extractGlutenInfoFromText text ec).glutenFreeStatus = "unknown" := by
  unfold extractGlutenInfoFromText
  by_cases h1 : (matchGlutenFree text && !matchNotGlutenFree text) = true <;>
    by_cases h2 : matchContainsGluten text = true <;>
    simp [h1, h2]

/-- Helper: with no recognizable keyword the fallback extractor reports
"unknown". -/
lemma extract_status_noKeywords (text : String) (ec : Option String)
    (h1 : matchGlutenFree text = false) (h2 : matchContainsGluten text = false) :
    (extractGlutenInfoFromText text ec).glutenFreeStatus = "unknown" := by
  unfold extractGlutenInfoFromText
  simp [h1, h2]

/-- Helper: with no explanation capture the fallback extractor keeps its
default explanation. -/
lemma extract_expl_default (text : String) :
    (extractGlutenInfoFromText text none).explanation =
      "Unable to determine from AI response" := rfl

/-- C10 (amended): every HTTP-200 Classifier response body is reported as a
success result (never an error) with status 200; whenever the gluten info
comes from the fallback text extractor — no JSON block matched or the
matched block did not parse — the reported status is one of "gluten-free",
"contains-gluten", "unknown", and with no recognizable status keyword it is
"unknown" with explanation "Unable to determine from AI response". The
original claim's "for every HTTP-200 body the status is one of the three"
fails when a parsed JSON block carries an arbitrary non-empty status
string, which is passed through unvalidated (see the counterexample). -/
theorem http200_alwaysSuccess (text : String) (oracle : GeminiTextOracle) :
    (checkGlutenStatus true (.okBody text oracle)).error = none ∧
    (checkGlutenStatus true (.okBody text oracle)).status = 200 ∧
    ∃ d, (checkGlutenStatus true (.okBody text oracle)).data = some d ∧
      d.success = true ∧
      ((oracle.jsonMatch = none ∨ oracle.jsonParsed = none) →
        (d.glutenFreeStatus = "gluten-free" ∨ d.glutenFreeStatus = "contains-gluten" ∨
          d.glutenFreeStatus = "unknown") ∧
        (matchGlutenFree text = false → matchContainsGluten text = false →
          d.glutenFreeStatus = "unknown" ∧
          (oracle.explCapture = none →
            d.explanation = "Unable to determine from AI response"))) := by
  obtain ⟨jm, jp, ec⟩ := oracle
  have hfb : ∀ h1 : (jm = none ∨ jp = none),
      ∀ gi, gi = extractGlutenInfoFromText text ec →
      ((if gi.glutenFreeStatus = "" then "unknown" else gi.glutenFreeStatus) = "gluten-free" ∨
        (if gi.glutenFreeStatus = "" then "unknown" else gi.glutenFreeStatus) = "contains-gluten" ∨
        (if gi.glutenFreeStatus = "" then "unknown" else gi.glutenFreeStatus) = "unknown") ∧
      (matchGlutenFree text = false → matchContainsGluten text = false →
        (if gi.glutenFreeStatus = "" then "unknown" else gi.glutenFreeStatus) = "unknown" ∧
        (ec = none →
          (if gi.explanation = "" then "Unable to determine" else gi.explanation) =
            "Unable to determine from AI response")) := by
    intro _ gi hgi
    subst hgi
    constructor
    · rcases extract_status_cases text ec with h | h | h <;> simp [h]
    · intro h1 h2
      have hu := extract_status_noKeywords text ec h1 h2
      constructor
      · simp [hu]
      · intro hec
        subst hec
        simp [extract_expl_default]
  cases jm with
  | none =>
    exact ⟨rfl, rfl, _, rfl, rfl, fun h => hfb h _ rfl⟩
  | some m =>
    cases jp with
    | none =>
      exact ⟨rfl, rfl, _, rfl, rfl, fun h => hfb h _ rfl⟩
    | some gi =>
      refine ⟨rfl, rfl, _, rfl, rfl, fun h => ?_⟩
      rcases h with h | h <;> exact absurd h (by simp)

/-- Witness for C10's amended theorem at a concrete input: the empty
response text with no JSON match is reported as a success with status
"unknown" and the default explanation. -/
theorem http200_alwaysSuccess_witness :
    (checkGlutenStatus true (.okBody "" ⟨none, none, none⟩)).error = none ∧
    ∃ d, (checkGlutenStatus true (.okBody "" ⟨none, none, none⟩)).data = some d ∧
      d.success = true ∧ d.glutenFreeStatus = "unknown" ∧
      d.explanation = "Unable to determine from AI response" := by
  obtain ⟨he, hs, d, hd, hsucc, himp⟩ := http200_alwaysSuccess "" ⟨none, none, none⟩
  obtain ⟨hmem, hunk⟩ := himp (Or.inl rfl)
  obtain ⟨hu, hexp⟩ := hunk (by decide) (by decide)
  exact ⟨he, d, hd, hsucc, hu, hexp rfl⟩

/-- C10 counterexample: an HTTP-200 body consisting of the JSON object
with field glutenFreeStatus set to "maybe" matches the brace regex, parses,
and its status string is passed through unvalidated, so
`checkGlutenStatus` reports a success whose `glutenFreeStatus` is "maybe" —
not one of "gluten-free", "contains-gluten", "unknown" — contradicting the
claim's universal membership. -/
theorem parsedJson_statusUnvalidated :
    (checkGlutenStatus true
        (.okBody "\x7b\"glutenFreeStatus\":\"maybe\"\x7d"
          ⟨some "\x7b\"glutenFreeStatus\":\"maybe\"\x7d", some ⟨"maybe", ""⟩,
            none⟩)).data =
      some ⟨true, "maybe", "Unable to determine"⟩ ∧
    ¬("maybe" = "gluten-free" ∨ "maybe" = "contains-gluten" ∨ "maybe" = "unknown") := by
  constructor
  · rfl
  · decide

/-- C9: the "Scan Recorded!" success notification is always the first
event of the `onSuccess` trace — the staleness check runs only after it —
and a Classifier failure during the background check never surfaces as a
scan failure: the trace still begins with the success notification and the
thrown error is absorbed into the "AI Gluten Check Failed" toast after the
Classifier call. -/
theorem scanSuccess_precedesStalenessCheck
    (data : ScanSuccessData) (token : Option String) (now : Int)
    (gemini : ApiResponse GlutenCheckData) (update : ApiResponse ProductStatus) :
    (recordScanOnSuccess data token now gemini update).head? =
      some (.scanRecordedToast data.productBarcode) ∧
    (∀ (p : ProductInScan) (created : Int) (st : ProductStatus),
      data.product = some p → p.createdAt = some created → p.status = some st →
      data.ingredientsIsString = true → msPerWeek ≤ now - created →
      ∀ e, glutenCheckTry st token gemini update = .error e →
        recordScanOnSuccess data token now gemini update =
          [.scanRecordedToast data.productBarcode, .classifierCall, .aiFailToast]) := by
  constructor
  · rfl
  · intro p created st hp hc hs hing hstale e herr
    have hfresh : ¬(now - msPerWeek < created) := by omega
    simp only [recordScanOnSuccess, hp]
    have hguard : (p.createdAt.isSome && p.status.isSome &&
        data.ingredientsIsString) = true := by
      rw [hc, hs, hing]
      rfl
    rw [if_pos hguard]
    simp only [checkAndProcessGlutenStatus, hc, hs]
    rw [if_neg hfresh, herr]
    rfl

/-- Witness for C9 at a concrete input: a stale product whose Classifier
call fails with a network error yields the trace success-toast, then
Classifier call, then AI-failure toast. -/
theorem scanSuccess_precedesStalenessCheck_witness :
    recordScanOnSuccess
        ⟨"0001", some ⟨"0001", "Granola Bar", "oats", some 0, some ⟨"unknown", none⟩⟩, true⟩
        (some "token") 604800000 ⟨none, some "network error", 0⟩ ⟨none, none, 200⟩ =
      [.scanRecordedToast "0001", .classifierCall, .aiFailToast] :=
  (scanSuccess_precedesStalenessCheck
      ⟨"0001", some ⟨"0001", "Granola Bar", "oats", some 0, some ⟨"unknown", none⟩⟩, true⟩
      (some "token") 604800000 ⟨none, some "network error", 0⟩ ⟨none, none, 200⟩).2
    ⟨"0001", "Granola Bar", "oats", some 0, some ⟨"unknown", none⟩⟩ 0 ⟨"unknown", none⟩
    rfl rfl rfl rfl (by decide) (.geminiApiFailed "network error") rfl

end GlutenPeek

